import Mathlib

/-!
Verification of the betaxiv repository (a Streamlit PDF-chat app backed by the
Gemini API and a flat-file session store) against its natural-language
specification.  The two source files are `src/session_manager.py` (flat-file
session store) and `src/app.py` (UI controller, document ingestion, and
conversation reconstruction).  The Python code is shallowly embedded below:
dictionaries become structures, the session directory becomes a list of
(filename, content) pairs, remote calls become oracle parameters, and Python
string operations are re-implemented over `List Char` with Python semantics.
-/

/-! ## Python-style string primitives

Python strings compare lexicographically by code point; `str.replace` replaces
every non-overlapping occurrence left to right; slicing `[:n]` takes the first
`n` characters.  These are defined over `List Char` so that all of them reduce
in the kernel. -/

/-- Lexicographic `<=` on char lists by code point (Python string comparison). -/
def lexLe : List Char → List Char → Bool
  | [], _ => true
  | _ :: _, [] => false
  | a :: as, b :: bs =>
    if a.toNat < b.toNat then true
    else if b.toNat < a.toNat then false
    else lexLe as bs

/-- Python string `<=`. -/
def strLe (a b : String) : Bool := lexLe a.data b.data

/-- Python `s.endswith(suffix)`. -/
def pyEndsWith (s suffix : String) : Bool := suffix.data.isSuffixOf s.data

/-- Fuel-bounded worker for `pyReplace`; the fuel is an upper bound on the
length of the remaining input, so the `0, l => l` branch is unreachable at the
call site. -/
def pyReplaceAux (pat : List Char) : Nat → List Char → List Char
  | _, [] => []
  | 0, l => l
  | fuel + 1, c :: rest =>
    if pat ≠ [] ∧ pat.isPrefixOf (c :: rest) then
      pyReplaceAux pat fuel ((c :: rest).drop pat.length)
    else
      c :: pyReplaceAux pat fuel rest

/-- Python `s.replace(pat, "")`: delete every non-overlapping occurrence of
`pat`, scanning left to right. -/
def pyReplace (s pat : String) : String :=
  ⟨pyReplaceAux pat.data s.data.length s.data⟩

/-- Python `s[:n]`. -/
def pyTake (s : String) (n : Nat) : String := ⟨s.data.take n⟩

/-! ## Data model

A stored chat turn is a dict `{"role": ..., "content": ...}`; roles written by
the app are `"user"` and `"assistant"` but the JSON files are schema-less, so
the role is an arbitrary string. -/

/-- One conversation turn as stored in `chat_history`. -/
structure Turn where
  role : String
  content : String
deriving DecidableEq, Repr

/-- A JSON scalar value as it can appear in a session file field: `null` or a
string.  (Richer values are not produced by the app; `null` is what Python's
`None` serialises to.) -/
inductive JVal
  | null
  | str (s : String)
deriving DecidableEq, Repr

/-- A parsed session JSON object.  Every field is optional because the files
are schema-less: `none` models an absent key (`dict.get` then returns its
default), `some .null` models a key bound to JSON `null`. -/
structure JObj where
  timestamp : Option JVal := none
  title : Option JVal := none
  pdf_path : Option JVal := none
  chat_history : Option (List Turn) := none
  summary : Option JVal := none
  system_prompt : Option JVal := none
deriving DecidableEq, Repr

/-- Content of one file in the sessions directory: either text that fails to
parse as JSON, or a parsed JSON object. -/
inductive FileContent
  | corrupt
  | obj (o : JObj)
deriving DecidableEq, Repr

/-- The sessions directory: a finite list of (filename, content) pairs, in
`os.listdir` order.  Filenames are unique on a real filesystem. -/
abbrev Dir := List (String × FileContent)

/-! ## `src/session_manager.py` -/

/-- `os.path.join(SESSIONS_DIR, f"{session_id}.json")`, with the constant
directory prefix dropped (all operations live inside it). -/
def sessionFilename (session_id : String) : String := session_id ++ ".json"

/-- Writing a file: replace the content in place if the name exists, else the
file appears as a new directory entry. -/
def writeFile : Dir → String → FileContent → Dir
  | [], name, c => [(name, c)]
  | e :: rest, name, c =>
    if e.1 = name then (name, c) :: rest else e :: writeFile rest name c

/-- `os.path.exists` / content lookup for a filename. -/
def lookupFile (dir : Dir) (name : String) : Option FileContent :=
  (dir.find? (fun e => e.1 = name)).map (·.2)

/-- `save_session(session_id, data)`: `json.dump` the record dict to
`<session_id>.json`, overwriting. -/
def save_session (dir : Dir) (session_id : String) (data : JObj) : Dir :=
  writeFile dir (sessionFilename session_id) (.obj data)

/-- Result of `load_session`: Python returns `None` when the file is absent,
the parsed dict when it parses, and raises `json.JSONDecodeError` on a corrupt
file. -/
inductive LoadResult
  | notFound
  | found (o : JObj)
  | raised
deriving DecidableEq, Repr

/-- `load_session(session_id)`. -/
def load_session (dir : Dir) (session_id : String) : LoadResult :=
  match lookupFile dir (sessionFilename session_id) with
  | none => .notFound
  | some .corrupt => .raised
  | some (.obj o) => .found o

/-- `delete_session(session_id)`: `os.remove` if the file exists, else no-op. -/
def delete_session (dir : Dir) (session_id : String) : Dir :=
  dir.filter (fun e => e.1 ≠ sessionFilename session_id)

/-! Helper lemmas about the file layer. -/

theorem lookupFile_writeFile_self (dir : Dir) (name : String) (c : FileContent) :
    lookupFile (writeFile dir name c) name = some c := by
  induction dir with
  | nil => simp [writeFile, lookupFile]
  | cons e rest ih =>
    by_cases h : e.1 = name
    · simp [writeFile, h, lookupFile, List.find?]
    · simpa [writeFile, h, lookupFile, List.find?] using ih

theorem lookupFile_filter_ne (dir : Dir) (name : String) :
    lookupFile (dir.filter (fun e => e.1 ≠ name)) name = none := by
  induction dir with
  | nil => simp [lookupFile]
  | cons e rest ih =>
    by_cases h : e.1 = name
    · simp [lookupFile, h] at ih ⊢
    · simp [lookupFile, List.find?, h] at ih ⊢

/-! ### `list_sessions` -/

/-- One element of the list returned by `list_sessions`.  `title` and
`timestamp` are `JVal`, not `String`: `data.get("title", filename)` yields the
stored value even when that value is JSON `null`, so a stored `null` flows
through as Python `None`. -/
structure SessionEntry where
  id : String
  title : JVal
  timestamp : JVal
  preview : JVal
deriving DecidableEq, Repr

/-- Python `data.get(key, default)`: the default applies only when the key is
absent, not when it is bound to `null`. -/
def pyGet (field : Option JVal) (default : JVal) : JVal := field.getD default

/-- The body of the `for filename in os.listdir(...)` loop in `list_sessions`:
skip names not ending in `.json`, skip files that fail to parse (the bare
`except Exception: continue`), and otherwise build the entry dict. -/
def entryOfFile : String × FileContent → Option SessionEntry
  | (filename, c) =>
    if pyEndsWith filename ".json" then
      match c with
      | .corrupt => none
      | .obj o =>
        let title := pyGet o.title (.str filename)
        some { id := pyReplace filename ".json"
               title := title
               timestamp := pyGet o.timestamp (.str "")
               preview := title }
    else none

/-- The accumulated `sessions` list before sorting. -/
def collectSessions (dir : Dir) : List SessionEntry := dir.filterMap entryOfFile

/-- Is the sort key (`x["timestamp"]`) a Python string? -/
def tsKeyIsStr (e : SessionEntry) : Bool :=
  match e.timestamp with
  | .str _ => true
  | .null => false

/-- The sort key as a string (only meaningful when `tsKeyIsStr`). -/
def tsKeyStr (e : SessionEntry) : String :=
  match e.timestamp with
  | .str s => s
  | .null => ""

/-- Comparator realising `sort(key=lambda x: x["timestamp"], reverse=True)`:
`a` may precede `b` iff `a`'s key is `>=` `b`'s key.  Ties keep `a` first, so a
stable merge sort with this comparator matches Python's stable reverse sort. -/
def entryLe (a b : SessionEntry) : Bool := strLe (tsKeyStr b) (tsKeyStr a)

/-- Python `list.sort(key=..., reverse=True)` over our value universe.  With
at most one element no comparison runs; otherwise every element takes part in
at least one comparison, and comparing `None` with anything (including `None`)
raises `TypeError`, so the sort raises exactly when some key is not a string.
-/
def pySortByTimestampDesc (l : List SessionEntry) :
    Except Unit (List SessionEntry) :=
  if l.length ≤ 1 then .ok l
  else if l.all tsKeyIsStr then .ok (l.mergeSort entryLe)
  else .error ()

/-- `list_sessions()`: collect entries of parseable `.json` files, then sort
by timestamp descending.  The sort happens outside the per-file
`try`/`except`, so a `TypeError` there propagates to the caller. -/
def list_sessions (dir : Dir) : Except Unit (List SessionEntry) :=
  pySortByTimestampDesc (collectSessions dir)

/-! Order lemmas for the comparator. -/

theorem lexLe_total : ∀ u v : List Char, lexLe u v = true ∨ lexLe v u = true := by
  intro u
  induction u with
  | nil => intro v; left; simp [lexLe]
  | cons a as ih =>
    intro v
    cases v with
    | nil => right; simp [lexLe]
    | cons b bs =>
      by_cases hab : a.toNat < b.toNat
      · left; simp [lexLe, hab]
      · by_cases hba : b.toNat < a.toNat
        · right; simp [lexLe, hba]
        · rcases ih bs with h | h
          · left; simp [lexLe, hab, hba, h]
          · right; simp [lexLe, hab, hba, h]

theorem lexLe_trans :
    ∀ u v w : List Char, lexLe u v = true → lexLe v w = true → lexLe u w = true := by
  intro u
  induction u with
  | nil => intro v w _ _; simp [lexLe]
  | cons a as ih =>
    intro v w huv hvw
    cases v with
    | nil => simp [lexLe] at huv
    | cons b bs =>
      cases w with
      | nil => simp [lexLe] at hvw
      | cons c cs =>
        simp only [lexLe] at huv hvw ⊢
        split_ifs at huv hvw ⊢ with h1 h2 h3 h4 h5 h6 <;>
          first
            | rfl
            | omega
            | (exact ih bs cs huv hvw)

theorem entryLe_trans (a b c : SessionEntry) :
    entryLe a b = true → entryLe b c = true → entryLe a c = true := by
  intro h1 h2
  exact lexLe_trans _ _ _ h2 h1

theorem entryLe_total (a b : SessionEntry) : (entryLe a b || entryLe b a) = true := by
  rcases lexLe_total (tsKeyStr b).data (tsKeyStr a).data with h | h <;>
    simp [entryLe, strLe, h]

/-! ## `src/app.py`

The Streamlit controller.  `st.session_state` becomes `AppState`; the remote
Gemini API becomes oracle parameters (an uploaded-file handle, a summary reply,
a per-call `ask` outcome); the sidebar text area's current content is passed as
an explicit `system_prompt` argument. -/

/-- One element of a Gemini history entry's `parts` list: the uploaded file
object or a text part. -/
inductive GPart
  | file (handle : Nat)
  | text (s : String)
deriving DecidableEq, Repr

/-- One entry of a Gemini conversation history (`{"role": ..., "parts": ...}`).
Gemini rôles are `"user"` and `"model"`. -/
structure GTurn where
  role : String
  parts : List GPart
deriving DecidableEq, Repr

/-- `initial_history` (app.py lines 206-215): the instructions delivered as a
user turn carrying the document and the system prompt, then a canned model
acknowledgement. -/
def initial_history (gemini_file : Nat) (system_prompt : String) : List GTurn :=
  [ { role := "user", parts := [.file gemini_file, .text system_prompt] },
    { role := "model",
      parts := [.text "I have analyzed the paper based on your instructions. What would you like to know?"] } ]

/-- The per-message mapping in the `full_history` loop (lines 236-240):
`"user" if msg["role"] == "user" else "model"`, parts `[msg["content"]]`. -/
def historyEntry (msg : Turn) : GTurn :=
  { role := if msg.role = "user" then "user" else "model"
    parts := [.text msg.content] }

/-- `full_history` (lines 235-241): the initial pair followed by every stored
turn, replayed in original order. -/
def full_history (gemini_file : Nat) (system_prompt : String)
    (chat_history : List Turn) : List GTurn :=
  initial_history gemini_file system_prompt ++ chat_history.map historyEntry

/-- The roles of a history, in order. -/
def rolesOf (l : List GTurn) : List String := l.map (·.role)

/-- The alternating role pattern `u, a, u, a, …` of length `n`. -/
def altPattern (u a : String) : Nat → List String
  | 0 => []
  | 1 => [u]
  | n + 2 => u :: a :: altPattern u a n

/-- The mutable Streamlit session state relevant to the controller. -/
structure AppState where
  session_id : String
  chat_history : List Turn
  summary : Option String
  gemini_file : Option Nat
  chat_session : Option (List GTurn)
  current_file_path : Option String
deriving DecidableEq, Repr

/-- `new_chat` (lines 92-99): fresh id, everything else cleared. -/
def new_chat (fresh_id : String) : AppState :=
  { session_id := fresh_id
    chat_history := []
    summary := none
    gemini_file := none
    chat_session := none
    current_file_path := none }

/-- Python truthiness of an optional string: `None` and `""` are falsy.  This
is the test `if not st.session_state.summary`. -/
def pyTruthy : Option String → Bool
  | none => false
  | some s => s != ""

/-- Outcome of the document-processing block: the (untouched) session
directory, the new state, and how many times the summary request was sent. -/
structure ProcOut where
  dir : Dir
  state : AppState
  summarize_calls : Nat
deriving DecidableEq, Repr

/-- The document block of `app.py` (lines 169-244), on the successful remote
path.  `uploaded_tmp` is the fresh temp-file path when the uploader holds a
file; `localExists` is `os.path.exists`; `handle` is the Gemini file handle
the upload yields and `summaryReply` the text the summary request returns.
The block performs no `save_session` call, so the directory passes through
unchanged. -/
def processFile (dir : Dir) (s : AppState) (uploaded_tmp : Option String)
    (api_key : Bool) (localExists : String → Bool) (system_prompt : String)
    (handle : Nat) (summaryReply : String) : ProcOut :=
  let s1 :=
    match uploaded_tmp with
    | some tmp =>
      if s.current_file_path ≠ some tmp then
        { s with current_file_path := some tmp, gemini_file := none }
      else s
    | none => s
  let active : Option String :=
    match uploaded_tmp with
    | some tmp => some tmp
    | none =>
      match s.current_file_path with
      | some p => if localExists p then some p else none
      | none => none
  match active with
  | none => ⟨dir, s1, 0⟩
  | some _ =>
    if api_key then
      if s1.gemini_file = none then
        let s2 := { s1 with gemini_file := some handle }
        let s3 := { s2 with chat_session := some (initial_history handle system_prompt) }
        let step4 :=
          if ¬ pyTruthy s3.summary then
            ({ s3 with summary := some summaryReply }, 1)
          else (s3, 0)
        let s4 := step4.1
        let s5 :=
          if s4.chat_history ≠ [] then
            { s4 with chat_session := some (full_history handle system_prompt s4.chat_history) }
          else s4
        ⟨dir, s5, step4.2⟩
      else ⟨dir, s1, 0⟩
    else ⟨dir, s1, 0⟩

/-- Serialising an optional string field of the record: Python `None` becomes
JSON `null`. -/
def toJStr : Option String → Option JVal
  | none => some .null
  | some s => some (.str s)

/-- The `session_data` dict built in the chat handler (lines 286-293). -/
def sessionRecord (s : AppState) (system_prompt now : String) : JObj :=
  { timestamp := some (.str now)
    title := some (.str (match s.chat_history with
      | [] => "New Chat"
      | t :: _ => pyTake t.content 50))
    pdf_path := toJStr s.current_file_path
    chat_history := some s.chat_history
    summary := toJStr s.summary
    system_prompt := some (.str system_prompt) }

/-- Outcome of one run of the chat-input handler. -/
structure AskOut where
  dir : Dir
  state : AppState
  err : Option String
deriving DecidableEq, Repr

/-- The chat-input handler (lines 268-297).  The user turn is appended to the
visible history before the remote call; on failure the handler only reports
the error (no save); on success the reply turn is appended and the whole
record is saved under the current session id. -/
def askStep (dir : Dir) (s : AppState) (system_prompt now prompt : String)
    (result : Except String String) : AskOut :=
  let s1 := { s with chat_history := s.chat_history ++ [⟨"user", prompt⟩] }
  match result with
  | .error e => ⟨dir, s1, some e⟩
  | .ok answer =>
    let s2 := { s1 with chat_history := s1.chat_history ++ [⟨"assistant", answer⟩] }
    ⟨save_session dir s2.session_id (sessionRecord s2 system_prompt now), s2, none⟩

/-- The polling loop of `upload_to_gemini` (lines 156-158), fuel-bounded:
`states i` is the state name of the `i`-th file object seen (index 0 is the
object `genai.upload_file` returns, index `i + 1` the result of the `i`-th
`genai.get_file`).  Returns the index at which the loop exits, or `none` if
the fuel runs out while still `"PROCESSING"`. -/
def pollFile (states : Nat → String) : Nat → Nat → Option Nat
  | 0, _ => none
  | fuel + 1, i =>
    if states i = "PROCESSING" then pollFile states fuel (i + 1) else some i

/-- `upload_to_gemini` (lines 152-161): poll while `"PROCESSING"`; once the
state is something else, raise `ValueError` iff it is `"FAILED"`, otherwise
return the file.  `none` means the loop is still polling after `fuel` checks
(the source imposes no bound). -/
def upload_to_gemini (fuel : Nat) (states : Nat → String) :
    Option (Except Unit Nat) :=
  match pollFile states fuel 0 with
  | none => none
  | some i => some (if states i = "FAILED" then .error () else .ok i)

/-! ## Store round-trip helpers -/

/-- Saving then loading the same id yields exactly the saved record. -/
theorem load_session_save_session (dir : Dir) (i : String) (R : JObj) :
    load_session (save_session dir i R) i = .found R := by
  simp [load_session, save_session, lookupFile_writeFile_self]

/-- Deleting an id that has no file leaves the directory unchanged. -/
theorem delete_session_absent (dir : Dir) (i : String)
    (h : lookupFile dir (sessionFilename i) = none) :
    delete_session dir i = dir := by
  induction dir with
  | nil => rfl
  | cons e rest ih =>
    by_cases he : e.1 = sessionFilename i
    · simp [lookupFile, List.find?, he] at h
    · have h' : lookupFile rest (sessionFilename i) = none := by
        simpa [lookupFile, List.find?, he] using h
      have hrest := ih h'
      simp [delete_session] at hrest ⊢
      exact ⟨he, hrest⟩

/-! ## Claims about the session store -/

/-- Claim C3: for every session id `i` and record `R`, `load(i)` after
`save(i, R)` returns a record equal to `R`, overwriting whatever the
directory previously held under `i`. -/
theorem C3_save_then_load_returns_record (dir : Dir) (i : String) (R : JObj) :
    load_session (save_session dir i R) i = .found R :=
  load_session_save_session dir i R

/-- Claim C7: `delete(i)` followed by `load(i)` yields "not found", and
deleting an id with no stored record (including one that never existed) is a
no-op, not an error. -/
theorem C7_delete_then_load_not_found (dir : Dir) (i : String) :
    load_session (delete_session dir i) i = .notFound ∧
    (lookupFile dir (sessionFilename i) = none → delete_session dir i = dir) := by
  refine ⟨?_, delete_session_absent dir i⟩
  unfold load_session delete_session
  rw [lookupFile_filter_ne]

/-- Witness for C7 at a concrete directory holding one unrelated file and an
id that never existed. -/
theorem C7_delete_then_load_not_found_witness :
    load_session (delete_session [("a.json", FileContent.corrupt)] "b") "b" = .notFound ∧
    delete_session [("a.json", FileContent.corrupt)] "b" = [("a.json", FileContent.corrupt)] :=
  ⟨(C7_delete_then_load_not_found [("a.json", FileContent.corrupt)] "b").1,
   (C7_delete_then_load_not_found [("a.json", FileContent.corrupt)] "b").2 (by decide)⟩

/-- Claim C6 (counterexample): a directory whose files all parse, one of them
with a JSON `null` timestamp, makes `list_sessions` raise: both files survive
the per-file `try`, but the sort outside it compares `None` with a string and
raises `TypeError`.  The claim's "returns, without throwing, for every state
of the session directory" is therefore false as stated. -/
theorem C6_counterexample_null_timestamp_raises :
    list_sessions [("a.json", .obj { timestamp := some .null }),
                   ("b.json", .obj { timestamp := some (.str "2024-06-01") })] =
      .error () := by
  rfl

/-- Claim C6 (amended): provided every parseable `.json` file's timestamp
field is a string when present (absent defaults to `""`), or at most one entry
is listed — in particular for any directory written by `save_session` —
`list_sessions` returns, without throwing, exactly the entries of the
parseable session files, skipping every file that fails to parse, ordered by
timestamp descending. -/
theorem C6_list_sessions_sorted_of_string_timestamps (dir : Dir)
    (h : (collectSessions dir).length ≤ 1 ∨ (collectSessions dir).all tsKeyIsStr = true) :
    ∃ l, list_sessions dir = .ok l ∧ l.Perm (dir.filterMap entryOfFile) ∧
      List.Sorted (fun a b => entryLe a b = true) l := by
  by_cases h1 : (collectSessions dir).length ≤ 1
  · refine ⟨collectSessions dir, ?_, List.Perm.refl _, ?_⟩
    · simp [list_sessions, pySortByTimestampDesc, h1]
    · have : ∀ l : List SessionEntry, l.length ≤ 1 →
          List.Sorted (fun a b => entryLe a b = true) l := by
        intro l hl
        match l with
        | [] => simp
        | [x] => simp
        | x :: y :: r => simp at hl
      exact this _ h1
  · have h2 : (collectSessions dir).all tsKeyIsStr = true := h.resolve_left h1
    refine ⟨(collectSessions dir).mergeSort entryLe, ?_, ?_, ?_⟩
    · simp [list_sessions, pySortByTimestampDesc, h1, h2]
    · exact List.mergeSort_perm _ _
    · exact List.sorted_mergeSort entryLe_trans entryLe_total _

/-- A concrete directory with two parseable files (one lacking a timestamp),
one corrupt `.json` file, and one non-JSON file. -/
def sampleDir : Dir :=
  [("junk.txt", .corrupt),
   ("a.json", .obj { timestamp := some (.str "2024-01-02"), title := some (.str "A") }),
   ("broken.json", .corrupt),
   ("b.json", .obj {})]

/-- Witness for C6 at `sampleDir`. -/
theorem C6_list_sessions_sorted_witness :
    ((collectSessions sampleDir).length ≤ 1 ∨
      (collectSessions sampleDir).all tsKeyIsStr = true) ∧
    (∃ l, list_sessions sampleDir = .ok l ∧ l.Perm (sampleDir.filterMap entryOfFile) ∧
      List.Sorted (fun a b => entryLe a b = true) l) :=
  ⟨Or.inr (by decide),
   C6_list_sessions_sorted_of_string_timestamps sampleDir (Or.inr (by decide))⟩

/-! ## Claims about conversation reconstruction -/

theorem altPattern_two_add (u a : String) (n : Nat) :
    altPattern u a (2 + n) = u :: a :: altPattern u a n := by
  rw [Nat.add_comm]
  rfl

theorem altPattern_user_assistant_to_model :
    ∀ n, (altPattern "user" "assistant" n).map
        (fun r => if r = "user" then "user" else "model") =
      altPattern "user" "model" n
  | 0 => rfl
  | 1 => by simp [altPattern]
  | n + 2 => by
    simp [altPattern, altPattern_user_assistant_to_model n]

/-- Claim C1 (counterexample): for stored turns that are tagged
user/assistant but do not alternate user-first — here the even-length log
`[assistant "x", user "y"]` — the rebuilt seed history does not alternate
`user, assistant, …`: its roles are `user, model, model, user`. -/
theorem C1_counterexample_nonalternating_turns :
    (∀ t ∈ ([⟨"assistant", "x"⟩, ⟨"user", "y"⟩] : List Turn),
      t.role = "user" ∨ t.role = "assistant") ∧
    rolesOf (full_history 0 "Analyze this paper." [⟨"assistant", "x"⟩, ⟨"user", "y"⟩]) ≠
      altPattern "user" "model" (2 + 2) := by
  decide

/-- Claim C1 (amended): for every list of N stored turns whose roles
themselves alternate `user, assistant, …` starting with a user turn — which
is what the claim's alternation conclusion forces — the rebuilt seed history
has length `2 + N`, its roles alternate `user, assistant(model), …` starting
with the instructions user turn and the canned acknowledgement, and the
entries after the first two carry exactly the stored turns' contents in their
original order. -/
theorem C1_rebuilt_history_alternates (turns : List Turn) (f : Nat) (p : String)
    (h : turns.map Turn.role = altPattern "user" "assistant" turns.length) :
    (full_history f p turns).length = 2 + turns.length ∧
    rolesOf (full_history f p turns) = altPattern "user" "model" (2 + turns.length) ∧
    ((full_history f p turns).drop 2).map GTurn.parts =
      turns.map (fun t => [GPart.text t.content]) := by
  refine ⟨?_, ?_, ?_⟩
  · simp [full_history, initial_history]
    omega
  · have e1 : turns.map (fun t => if t.role = "user" then "user" else "model") =
        (turns.map Turn.role).map (fun r => if r = "user" then "user" else "model") := by
      rw [List.map_map]; rfl
    have key : turns.map (fun t => if t.role = "user" then "user" else "model") =
        altPattern "user" "model" turns.length := by
      rw [e1, h, altPattern_user_assistant_to_model]
    rw [altPattern_two_add]
    simp only [rolesOf, full_history, initial_history, List.map_append, List.map_map,
      List.cons_append, List.nil_append, List.map_cons, List.map_nil]
    rw [← key]
    rfl
  · simp only [full_history, initial_history, List.cons_append, List.nil_append,
      List.drop_succ_cons, List.drop_zero, List.map_map]
    rfl

/-- Witness for C1 at the two alternating stored turns
`[user "q", assistant "a"]`. -/
theorem C1_rebuilt_history_alternates_witness :
    (([⟨"user", "q"⟩, ⟨"assistant", "a"⟩] : List Turn).map Turn.role =
      altPattern "user" "assistant" 2) ∧
    ((full_history 5 "p" [⟨"user", "q"⟩, ⟨"assistant", "a"⟩]).length = 2 + 2 ∧
     rolesOf (full_history 5 "p" [⟨"user", "q"⟩, ⟨"assistant", "a"⟩]) =
       altPattern "user" "model" (2 + 2) ∧
     ((full_history 5 "p" [⟨"user", "q"⟩, ⟨"assistant", "a"⟩]).drop 2).map GTurn.parts =
       ([⟨"user", "q"⟩, ⟨"assistant", "a"⟩] : List Turn).map
         (fun t => [GPart.text t.content])) :=
  ⟨by decide, C1_rebuilt_history_alternates [⟨"user", "q"⟩, ⟨"assistant", "a"⟩] 5 "p" (by decide)⟩

/-! ## Claims about document ingestion -/

theorem pollFile_all_processing (states : Nat → String)
    (h : ∀ n, states n = "PROCESSING") :
    ∀ fuel i, pollFile states fuel i = none := by
  intro fuel
  induction fuel with
  | zero => intro i; rfl
  | succ k ih => intro i; simp [pollFile, h i, ih]

theorem pollFile_first_exit (states : Nat → String) :
    ∀ fuel i n, i ≤ n → (∀ m, i ≤ m → m < n → states m = "PROCESSING") →
      states n ≠ "PROCESSING" → n - i < fuel → pollFile states fuel i = some n := by
  intro fuel
  induction fuel with
  | zero => intro i n _ _ _ hlt; omega
  | succ k ih =>
    intro i n hin hproc hn hfuel
    by_cases hi : i = n
    · subst hi; simp [pollFile, hn]
    · have hpi : states i = "PROCESSING" := hproc i le_rfl (by omega)
      simp only [pollFile, hpi, if_pos]
      exact ih (i + 1) n (by omega) (fun m h1 h2 => hproc m (by omega) h2) hn (by omega)

/-- Claim C8: the upload poll retries exactly while the remote state is
`"PROCESSING"` — forever if it never leaves that state — and at the first
non-processing state it raises (`ValueError`, the ingestion error) iff that
state is the terminal `"FAILED"`, returning the file handle otherwise. -/
theorem C8_upload_retries_while_processing (states : Nat → String) :
    ((∀ n, states n = "PROCESSING") →
      ∀ fuel, upload_to_gemini fuel states = none) ∧
    (∀ n, (∀ m, m < n → states m = "PROCESSING") → states n ≠ "PROCESSING" →
      ∀ fuel, n < fuel →
        upload_to_gemini fuel states =
          some (if states n = "FAILED" then Except.error () else Except.ok n)) := by
  constructor
  · intro h fuel
    simp [upload_to_gemini, pollFile_all_processing states h fuel 0]
  · intro n hproc hn fuel hfuel
    have hp := pollFile_first_exit states fuel 0 n (Nat.zero_le _)
      (fun m _ h2 => hproc m h2) hn (by omega)
    simp [upload_to_gemini, hp]

/-- Witness for C8: two polls of `"PROCESSING"` then `"ACTIVE"` make the
upload return the ready handle. -/
theorem C8_upload_retries_while_processing_witness :
    upload_to_gemini 3 (fun n => if n < 2 then "PROCESSING" else "ACTIVE") =
      some (Except.ok 2) := by
  have h := (C8_upload_retries_while_processing
      (fun n => if n < 2 then "PROCESSING" else "ACTIVE")).2 2
    (by decide) (by decide) 3 (by omega)
  simpa using h

/-! ## Claims about the controller -/

/-- Claim C2: for every session state and user message, if the remote send
raises then the durable store is untouched (no save occurs); if it succeeds
then the persisted record under the session id carries exactly the previous
history plus the user turn followed by the assistant reply.  The durable log
never gains this call's user turn without its reply. -/
theorem C2_ask_failure_leaves_store_unchanged (dir : Dir) (s : AppState)
    (sp now prompt : String) :
    (∀ e, (askStep dir s sp now prompt (.error e)).dir = dir) ∧
    (∀ answer, ∃ r,
      load_session (askStep dir s sp now prompt (.ok answer)).dir s.session_id =
        .found r ∧
      r.chat_history =
        some (s.chat_history ++ [⟨"user", prompt⟩, ⟨"assistant", answer⟩])) := by
  constructor
  · intro e; rfl
  · intro answer
    refine ⟨_, load_session_save_session dir s.session_id _, ?_⟩
    simp [sessionRecord]

/-- Claim C4 (counterexample): a record can carry a non-absent summary — the
empty string — and still have the summary request re-sent when the document
is processed, because the guard is Python truthiness (`if not summary`), not
presence. -/
theorem C4_counterexample_empty_string_summary :
    (({ new_chat "sid" with summary := some "" } : AppState).summary).isSome = true ∧
    (processFile [] { new_chat "sid" with summary := some "" } (some "/tmp/d.pdf")
        true (fun _ => false) "Analyze this paper." 7 "S").summarize_calls = 1 :=
  ⟨rfl, rfl⟩

/-- Claim C4 (amended): whenever the session state carries a non-absent and
non-empty summary, processing the document — whatever the upload, API-key,
or local-file situation — never sends the summary request again. -/
theorem C4_nonempty_summary_never_summarizes_again (dir : Dir) (s : AppState)
    (uploaded : Option String) (api_key : Bool) (localExists : String → Bool)
    (sp reply : String) (handle : Nat) (t : String)
    (hs : s.summary = some t) (ht : t ≠ "") :
    (processFile dir s uploaded api_key localExists sp handle reply).summarize_calls
      = 0 := by
  have htr : pyTruthy s.summary = true := by simp [pyTruthy, hs, ht]
  unfold processFile
  rcases uploaded with _ | tmp
  all_goals
    dsimp only
    repeat' split
  all_goals simp_all [pyTruthy]

/-- Witness for C4 at a state holding the non-empty summary `"S"`. -/
theorem C4_nonempty_summary_never_summarizes_again_witness :
    (processFile [] { new_chat "sid" with summary := some "S" } (some "/tmp/d.pdf")
        true (fun _ => false) "Analyze this paper." 7 "R").summarize_calls = 0 :=
  C4_nonempty_summary_never_summarizes_again [] _ (some "/tmp/d.pdf") true
    (fun _ => false) "Analyze this paper." "R" 7 "S" rfl (by decide)

/-- A session that already summarised document A. -/
def staleSummaryState : AppState :=
  { session_id := "sid"
    chat_history := []
    summary := some "summary of A"
    gemini_file := some 3
    chat_session := some (initial_history 3 "Analyze this paper.")
    current_file_path := some "/tmp/A.pdf" }

/-- Claim C5 (code bug): uploading a different document B into a session whose
summary describes document A changes `current_file_path` and forces a
re-upload (`gemini_file` is reset), but neither clears the stored summary nor
regenerates it — the summary request is sent 0 times because the presence
guard sees A's summary — so the stored summary no longer describes the
session's current document. -/
theorem C5_new_upload_keeps_stale_summary :
    (processFile [] staleSummaryState (some "/tmp/B.pdf") true (fun _ => true)
        "Analyze this paper." 8 "summary of B").state.current_file_path =
      some "/tmp/B.pdf" ∧
    (processFile [] staleSummaryState (some "/tmp/B.pdf") true (fun _ => true)
        "Analyze this paper." 8 "summary of B").state.summary =
      some "summary of A" ∧
    (processFile [] staleSummaryState (some "/tmp/B.pdf") true (fun _ => true)
        "Analyze this paper." 8 "summary of B").summarize_calls = 0 :=
  ⟨rfl, rfl, rfl⟩

/-- Claim C9 (counterexample): a fresh session that uploads a document and
obtains the summary `"S"` holds it only in working state; the document block
performs no save, so reloading the session finds nothing stored. -/
def freshProcessed : ProcOut :=
  processFile [] (new_chat "sid") (some "/tmp/d.pdf") true (fun _ => false)
    "Analyze this paper." 7 "S"

/-- Claim C9 (counterexample): after a successful summarize the durable store
is untouched and a reload of the session does not find the summary. -/
theorem C9_counterexample_summary_not_persisted :
    freshProcessed.summarize_calls = 1 ∧
    freshProcessed.state.summary = some "S" ∧
    freshProcessed.dir = [] ∧
    load_session freshProcessed.dir "sid" = .notFound :=
  ⟨rfl, rfl, rfl, rfl⟩

/-- Claim C9 (amended): when a document is supplied and the summary is absent
(falsy), the controller calls summarize exactly once and stores the reply in
working state, leaving the durable store untouched at that point; the summary
reaches the durable record only with the next successful chat exchange, whose
saved record carries it. -/
theorem C9_summary_persisted_on_next_successful_ask (dir : Dir) (s : AppState)
    (localExists : String → Bool) (tmp sp now prompt answer reply : String)
    (handle : Nat)
    (h1 : pyTruthy s.summary = false)
    (h2 : s.current_file_path = some tmp → s.gemini_file = none) :
    (processFile dir s (some tmp) true localExists sp handle reply).summarize_calls = 1 ∧
    (processFile dir s (some tmp) true localExists sp handle reply).state.summary =
      some reply ∧
    (processFile dir s (some tmp) true localExists sp handle reply).dir = dir ∧
    (∃ r, load_session
        (askStep dir
          (processFile dir s (some tmp) true localExists sp handle reply).state
          sp now prompt (.ok answer)).dir
        s.session_id = .found r ∧
      r.summary = some (.str reply)) := by
  unfold processFile
  dsimp only
  split_ifs with hup hkey hgem hsum hch hsum hch hgem hsum hch hsum
  all_goals
    first
      | (refine ⟨rfl, rfl, rfl, _, load_session_save_session dir s.session_id _, ?_⟩
         simp [sessionRecord, toJStr])
      | simp_all [pyTruthy]

/-- Witness for C9 at a fresh session uploading one document. -/
theorem C9_summary_persisted_on_next_successful_ask_witness :
    (processFile [] (new_chat "sid") (some "/tmp/d.pdf") true (fun _ => false)
        "p" 7 "R").summarize_calls = 1 ∧
    (processFile [] (new_chat "sid") (some "/tmp/d.pdf") true (fun _ => false)
        "p" 7 "R").state.summary = some "R" ∧
    (processFile [] (new_chat "sid") (some "/tmp/d.pdf") true (fun _ => false)
        "p" 7 "R").dir = [] ∧
    (∃ r, load_session
        (askStep []
          (processFile [] (new_chat "sid") (some "/tmp/d.pdf") true (fun _ => false)
            "p" 7 "R").state
          "p" "t1" "q" (.ok "a")).dir
        "sid" = .found r ∧
      r.summary = some (.str "R")) :=
  C9_summary_persisted_on_next_successful_ask [] (new_chat "sid") (fun _ => false)
    "/tmp/d.pdf" "p" "t1" "q" "a" "R" 7 rfl (by decide)

/-- The ask that fails after the fresh upload of `freshProcessed`. -/
def afterFailedAsk : AskOut :=
  askStep freshProcessed.dir freshProcessed.state "Analyze this paper."
    "2024-06-01T10:00:00" "q1" (.error "429 rate limit")

/-- A second ask in the same session that succeeds. -/
def afterSecondAsk : AskOut :=
  askStep afterFailedAsk.dir afterFailedAsk.state "Analyze this paper."
    "2024-06-01T10:01:00" "q2" (.ok "a2")

/-- Claim C10: a failed ask leaves the unanswered user turn in the in-memory
history (and saves nothing); when a later ask succeeds, the whole history —
including the dangling user turn — is persisted, so the durable log holds two
consecutive user turns and does not alternate user/assistant. -/
theorem C10_failed_ask_leaves_dangling_user_turn :
    afterFailedAsk.state.chat_history = [⟨"user", "q1"⟩] ∧
    afterFailedAsk.dir = [] ∧
    load_session afterSecondAsk.dir "sid" =
      .found { timestamp := some (.str "2024-06-01T10:01:00")
               title := some (.str "q1")
               pdf_path := some (.str "/tmp/d.pdf")
               chat_history := some [⟨"user", "q1"⟩, ⟨"user", "q2"⟩, ⟨"assistant", "a2"⟩]
               summary := some (.str "S")
               system_prompt := some (.str "Analyze this paper.") } ∧
    ([⟨"user", "q1"⟩, ⟨"user", "q2"⟩, ⟨"assistant", "a2"⟩] : List Turn).map Turn.role ≠
      altPattern "user" "assistant" 3 :=
  ⟨rfl, rfl, by decide, by decide⟩
